import Mathlib

/-!
Verification development for the KoBo batch uploader (main.py and mainv2.py).

The repository submits spreadsheet rows to a form-data API in fixed-size
batches.  This file gives a shallow embedding of the parts of the two
pipeline variants that the specification talks about:

* the urllib3 Retry semantics configured by send_request_with_retry
  (total=max_retries, status_forcelist=[500, 502, 503, 504],
  allowed_methods=[POST]),
* outcome classification in process_batch
  (if response and response.status_code == 201),
* create_payload and safe_str (field mapping, NaN coercion, the fresh
  uuid.uuid4 instance identifier),
* the batch partitioning done by
  df.groupby(np.arange(len(df)) // batch_size),
* credential resolution (get_api_token in main.py, the API_TOKEN
  environment variable in mainv2.py).

Nondeterministic inputs of the program are parameters of the model: the
network behaviour is an oracle giving the result of each HTTP attempt, and
the stream of uuid.uuid4 draws is a function from call indices to strings.
-/

namespace KoboSpec

/-- One HTTP attempt as seen by the retry layer: either a response carrying
a status code, or a transport-level exception (connection failure, timeout). -/
inductive AttemptResult where
  | status (code : Nat)
  | transportError
deriving DecidableEq, Repr

/-- The behaviour of the remote endpoint for one record: the result of each
successive HTTP attempt, attempt numbers starting at 0. -/
def Endpoint : Type := Nat → AttemptResult

/-- status_forcelist=[500, 502, 503, 504] of the Retry configuration shared
by main.py and mainv2.py. -/
def statusForcelist : List Nat := [500, 502, 503, 504]

/-- urllib3 Retry semantics for
Retry(total=budget, status_forcelist=[500, 502, 503, 504],
allowed_methods=[POST]) driving session.post: returns the status code of
the terminal response, or none when the call ends in an exception (a
transport failure with no retries left, or retry exhaustion on a forcelist
status, both surfaced as requests.RequestException and caught by the
caller).  budget is the number of retries still allowed after the current
attempt. -/
def retryLoop (ep : Endpoint) : (attempt : Nat) → (budget : Nat) → Option Nat
  | attempt, 0 =>
    match ep attempt with
    | .transportError => none
    | .status c => if statusForcelist.contains c then none else some c
  | attempt, b + 1 =>
    match ep attempt with
    | .transportError => retryLoop ep (attempt + 1) b
    | .status c => if statusForcelist.contains c then retryLoop ep (attempt + 1) b else some c

/-- Number of HTTP requests actually put on the wire by the retry loop. -/
def requestCount (ep : Endpoint) : (attempt : Nat) → (budget : Nat) → Nat
  | _, 0 => 1
  | attempt, b + 1 =>
    match ep attempt with
    | .transportError => 1 + requestCount ep (attempt + 1) b
    | .status c => if statusForcelist.contains c then 1 + requestCount ep (attempt + 1) b else 1

/-- Per-record terminal result logged by process_batch. -/
inductive Outcome where
  | success
  | failure
deriving DecidableEq, Repr, Inhabited

/-- The classification line of process_batch in both variants:
if response and response.status_code == 201.  Truthiness of a
requests.Response is response.ok, that is status_code < 400; none models
the None returned by send_request_with_retry after an exception. -/
def classify (response : Option Nat) : Outcome :=
  match response with
  | none => Outcome.failure
  | some code => if code < 400 && code == 201 then Outcome.success else Outcome.failure

/-- A spreadsheet cell: either a missing value (NaN, detected by pd.isna)
or an ordinary value, kept as the string str renders it to. -/
inductive CellValue where
  | na
  | str (s : String)
deriving DecidableEq, Repr

/-- One spreadsheet row as pandas hands it to create_payload: an ordered
association of column names to cell values. -/
structure Record where
  fields : List (String × CellValue)
deriving DecidableEq, Repr

/-- pandas Series indexing row[key]: the cell when the column exists, a
KeyError otherwise. -/
def Record.get (r : Record) (key : String) : Except String CellValue :=
  match r.fields.lookup key with
  | some v => Except.ok v
  | none => Except.error ("KeyError: " ++ key)

/-- safe_str of both variants: empty string for a NaN value, str(value)
otherwise. -/
def safe_str (value : CellValue) : String :=
  match value with
  | .na => ""
  | .str s => s

/-- The meta object of a submission payload. -/
structure Meta where
  instanceID : String
deriving DecidableEq, Repr, Inhabited

/-- Request bodies put on the wire for one record: process_batch evaluates
create_payload once per record and passes the resulting dict to
send_request_with_retry, whose retry layer re-sends that same body on every
attempt. -/
def sentPayloads {α : Type} (ep : Endpoint) (maxRetries : Nat) (payload : α) : List α :=
  List.replicate (requestCount ep 0 maxRetries) payload

namespace Main

/-- send_request_with_retry of main.py: the terminal Response is returned
raw (its status untouched); any requests.RequestException yields None. -/
def send_request_with_retry (ep : Endpoint) (max_retries : Nat) : Option Nat :=
  retryLoop ep 0 max_retries

/-- The submission object built by create_payload of main.py (formhub kept
as its single uuid entry; the source key __version__ is called version
here). -/
structure Submission where
  formhub_uuid : String
  Process_Status : String
  Reception_ID : String
  Full_Name : String
  Sex : String
  Date_of_Birth : String
  Arrival_Date : String
  Ethnicity : String
  Group_Size : String
  Reception_Location : String
  version : String
  meta : Meta
deriving DecidableEq, Repr, Inhabited

/-- The payload dict built by create_payload of main.py. -/
structure Payload where
  id : String
  submission : Submission
deriving DecidableEq, Repr, Inhabited

/-- create_payload of main.py.  Column lookups happen in source order and a
missing column raises KeyError (modelled as Except.error).  freshUuid is
the uuid.uuid4() value drawn at this single call. -/
def create_payload (parent_row : Record) (project_uuid : String) (freshUuid : String) :
    Except String Payload := do
  let ps ← parent_row.get "Process_Status"
  let rid ← parent_row.get "Reception_ID"
  let fn ← parent_row.get "Full_Name"
  let sx ← parent_row.get "Sex"
  let dob ← parent_row.get "Date_of_Birth"
  let ad ← parent_row.get "Arrival_Date"
  let eth ← parent_row.get "Ethnicity"
  let gs ← parent_row.get "Group_Size"
  let rl ← parent_row.get "Reception_Location"
  Except.ok
    { id := project_uuid
      submission :=
        { formhub_uuid := "6c18862e8a0442f5b04e957541bb223d"
          Process_Status := safe_str ps
          Reception_ID := safe_str rid
          Full_Name := safe_str fn
          Sex := safe_str sx
          Date_of_Birth := safe_str dob
          Arrival_Date := safe_str ad
          Ethnicity := safe_str eth
          Group_Size := safe_str gs
          Reception_Location := safe_str rl
          version := "vHgTnHiEdARTknHYRTLR2x"
          meta := { instanceID := "uuid:" ++ freshUuid } } }

/-- The columns create_payload of main.py reads; it succeeds exactly when
all of them exist in the row. -/
def hasRequiredFields (r : Record) : Bool :=
  (r.fields.lookup "Process_Status").isSome && ((r.fields.lookup "Reception_ID").isSome
    && ((r.fields.lookup "Full_Name").isSome && ((r.fields.lookup "Sex").isSome
    && ((r.fields.lookup "Date_of_Birth").isSome && ((r.fields.lookup "Arrival_Date").isSome
    && ((r.fields.lookup "Ethnicity").isSome && ((r.fields.lookup "Group_Size").isSome
    && (r.fields.lookup "Reception_Location").isSome)))))))

/-- Replaces the per-call instance identifier by a fixed string, leaving
every other payload field untouched. -/
def stripInstanceID (p : Payload) : Payload :=
  { p with submission := { p.submission with meta := { instanceID := "" } } }

/-- get_api_token of main.py: config.get("api_token_map", {}).get(user_value)
followed by a truthiness test; the map is modelled as an association list
(the absent-map default being the empty list).  A missing key yields None
and an empty string is falsy, so both raise ValueError. -/
def tokenFalsy (token_key : Option String) : Bool :=
  match token_key with
  | none => true
  | some s => s == ""

/-- The configuration dict of main.py, restricted to the keys the embedded
code reads. -/
structure Config where
  batch_size : Nat
  concurrency_level : Nat
  project_uuid : String
  api_token_map : List (String × String)
deriving Repr

def get_api_token (config : Config) (user_value : String) : Except String String :=
  let token_key := config.api_token_map.lookup user_value
  if tokenFalsy token_key then Except.error ("Unknown user value: " ++ user_value)
  else Except.ok (token_key.getD "")

/-- The headers dict built inline in main of main.py. -/
structure Headers where
  authorization : String
  contentType : String
deriving DecidableEq, Repr, Inhabited

end Main

namespace MainV2

/-- send_request_with_retry of mainv2.py: after the retry layer returns a
terminal response, response.raise_for_status() turns any 4xx or 5xx status
into an HTTPError, caught as requests.RequestException, yielding None. -/
def send_request_with_retry (ep : Endpoint) (max_retries : Nat) : Option Nat :=
  match retryLoop ep 0 max_retries with
  | none => none
  | some c => if 400 ≤ c && c < 600 then none else some c

/-- The submission object built by create_payload of mainv2.py.  The source
key Type is a reserved word in Lean and is called Type_field here. -/
structure Submission where
  formhub_uuid : String
  Reception_ID : String
  Type_field : String
  Group_Size : String
  version : String
  meta : Meta
deriving DecidableEq, Repr, Inhabited

/-- The payload dict built by create_payload of mainv2.py. -/
structure Payload where
  id : String
  submission : Submission
deriving DecidableEq, Repr, Inhabited

/-- create_payload of mainv2.py; freshUuid is the uuid.uuid4() value drawn
at this single call. -/
def create_payload (row : Record) (project_uuid : String) (freshUuid : String) :
    Except String Payload := do
  let rid ← row.get "Reception_ID"
  let ty ← row.get "Type"
  let gs ← row.get "Group_Size"
  Except.ok
    { id := project_uuid
      submission :=
        { formhub_uuid := "ba58ebec6e0948788e3b6069a1e2f19f"
          Reception_ID := safe_str rid
          Type_field := safe_str ty
          Group_Size := safe_str gs
          version := "v6aBj5Nyn7GUydpo5kXjsv"
          meta := { instanceID := "uuid:" ++ freshUuid } } }

/-- Rendering of a Python value inside an f-string: None prints as the
string None. -/
def pyStr (value : Option String) : String :=
  match value with
  | none => "None"
  | some s => s

/-- get_headers of mainv2.py, applied to API_TOKEN = os.getenv("API_TOKEN").
The environment variable may be absent, in which case the f-string renders
the literal None. -/
def get_headers (api_token : Option String) : Main.Headers :=
  { authorization := "Token " ++ pyStr api_token
    contentType := "application/json" }

/-- Replaces the per-call instance identifier by a fixed string. -/
def stripInstanceID (p : Payload) : Payload :=
  { p with submission := { p.submission with meta := { instanceID := "" } } }

/-- The columns create_payload of mainv2.py reads. -/
def hasRequiredFields (r : Record) : Bool :=
  (r.fields.lookup "Reception_ID").isSome && ((r.fields.lookup "Type").isSome
    && (r.fields.lookup "Group_Size").isSome)

end MainV2

/-!
Batch partitioning.  Both variants run
df.groupby(np.arange(len(df)) // batch_size): every row index i is keyed by
i // batch_size, and groupby yields the groups in ascending key order, each
group keeping the original row order.  numpy floor division of a
non-negative integer by zero emits a warning and yields 0, which is also
Lean division-by-zero behaviour, so no error path exists here.
-/

/-- The distinct group keys np.arange(n) // B in the ascending order pandas
groupby iterates them. -/
def batchKeys (n B : Nat) : List Nat :=
  (((List.range n).map (fun i => i / B)).toFinset).sort (· ≤ ·)

/-- df.groupby(np.arange(len(df)) // batch_size): the list of groups, in
ascending key order, each group the rows whose index has that key, in row
order. -/
def batchPartition {α : Type} (records : List α) (B : Nat) : List (List α) :=
  (batchKeys records.length B).map
    (fun k => (records.enum.filter (fun p => p.1 / B == k)).map Prod.snd)

namespace Main

/-- The payload-construction part of process_batch of main.py: the dict
comprehension evaluates create_payload once per row, in row order, in the
submitting thread; the first KeyError aborts the batch.  uus i is the
uuid.uuid4 draw for global row index i. -/
def buildPayloads (project_uuid : String) (uus : Nat → String) :
    (firstIndex : Nat) → List Record → Except String (List Payload)
  | _, [] => Except.ok []
  | i, row :: rest => do
    let p ← create_payload row project_uuid (uus i)
    let ps ← buildPayloads project_uuid uus (i + 1) rest
    Except.ok (p :: ps)

/-- process_batch of main.py: builds one payload per row, submits each row
through send_request_with_retry and logs one Success or Failure outcome per
row.  eps i is the network behaviour seen by the record with global index
i; offset is the global index of the first record of the batch.  The
as_completed iteration order is unspecified; the model records the
outcomes in row order, one legal interleaving. -/
def process_batch (offset : Nat) (batch : List Record) (project_uuid : String)
    (uus : Nat → String) (eps : Nat → Endpoint) (max_retries : Nat) :
    Except String (List Outcome) := do
  let _payloads ← buildPayloads project_uuid uus offset batch
  Except.ok ((List.range batch.length).map
    (fun j => classify (send_request_with_retry (eps (offset + j)) max_retries)))

/-- The batch loop of main of main.py: batches processed strictly in order,
outcomes accumulated across batches. -/
def run_batches (project_uuid : String) (uus : Nat → String) (eps : Nat → Endpoint)
    (max_retries : Nat) : List (List Record) → (offset : Nat) → Except String (List Outcome)
  | [], _ => Except.ok []
  | b :: bs, offset => do
    let outs ← process_batch offset b project_uuid uus eps max_retries
    let rest ← run_batches project_uuid uus eps max_retries bs (offset + b.length)
    Except.ok (outs ++ rest)

/-- main of main.py: resolves the API token (fatal ValueError when the
lookup fails), builds the headers, partitions the rows and processes the
batches.  df_root stands for the spreadsheet rows, uus for the uuid.uuid4
stream and eps for the network. -/
def main (config : Config) (df_root : List Record) (uus : Nat → String)
    (eps : Nat → Endpoint) (max_retries : Nat) : Except String (List Outcome) := do
  let api_token ← get_api_token config "unhcr_prod"
  let _headers : Headers :=
    { authorization := "Token " ++ api_token, contentType := "application/json" }
  run_batches config.project_uuid uus eps max_retries
    (batchPartition df_root config.batch_size) 0

end Main

namespace MainV2

/-- The payload-construction part of process_batch of mainv2.py. -/
def buildPayloads (project_uuid : String) (uus : Nat → String) :
    (firstIndex : Nat) → List Record → Except String (List Payload)
  | _, [] => Except.ok []
  | i, row :: rest => do
    let p ← create_payload row project_uuid (uus i)
    let ps ← buildPayloads project_uuid uus (i + 1) rest
    Except.ok (p :: ps)

/-- process_batch of mainv2.py: same structure as the first variant, with
its own send_request_with_retry. -/
def process_batch (offset : Nat) (batch : List Record) (project_uuid : String)
    (uus : Nat → String) (eps : Nat → Endpoint) (max_retries : Nat) :
    Except String (List Outcome) := do
  let _payloads ← buildPayloads project_uuid uus offset batch
  Except.ok ((List.range batch.length).map
    (fun j => classify (send_request_with_retry (eps (offset + j)) max_retries)))

/-- The batch loop of main of mainv2.py. -/
def run_batches (project_uuid : String) (uus : Nat → String) (eps : Nat → Endpoint)
    (max_retries : Nat) : List (List Record) → (offset : Nat) → Except String (List Outcome)
  | [], _ => Except.ok []
  | b :: bs, offset => do
    let outs ← process_batch offset b project_uuid uus eps max_retries
    let rest ← run_batches project_uuid uus eps max_retries bs (offset + b.length)
    Except.ok (outs ++ rest)

/-- The configuration dict of mainv2.py, restricted to the keys the
embedded code reads. -/
structure Config where
  batch_size : Nat
  project_uuid : String
deriving Repr

/-- main of mainv2.py: builds headers directly from the API_TOKEN
environment variable (possibly absent, never validated) and processes the
batches.  The returned pair exposes the headers every request was sent
with, alongside the outcomes. -/
def main (api_token : Option String) (config : Config) (df_root : List Record)
    (uus : Nat → String) (eps : Nat → Endpoint) (max_retries : Nat) :
    Except String (Main.Headers × List Outcome) := do
  let headers := get_headers api_token
  let outs ← run_batches config.project_uuid uus eps max_retries
    (batchPartition df_root config.batch_size) 0
  Except.ok (headers, outs)

end MainV2

/-! Concrete fixtures used by counterexamples and witnesses. -/

/-- An endpoint answering 500 to every attempt. -/
def always500 : Endpoint := fun _ => AttemptResult.status 500

/-- An endpoint answering 503 to every attempt. -/
def always503 : Endpoint := fun _ => AttemptResult.status 503

/-- An endpoint answering 201 to every attempt. -/
def always201 : Endpoint := fun _ => AttemptResult.status 201

/-- An endpoint failing with 503 exactly k times, then answering 201. -/
def flaky503 (k : Nat) : Endpoint :=
  fun attempt => if attempt < k then AttemptResult.status 503 else AttemptResult.status 201

/-- A network where every record sees an always-succeeding endpoint. -/
def netAll201 : Nat → Endpoint := fun _ => always201

/-- A fixed uuid.uuid4 stream. -/
def uusFixed : Nat → String := fun _ => "abc"

/-- A row carrying every column main.py maps (one value missing as NaN). -/
def rowFull : Record :=
  { fields := [("Process_Status", CellValue.str "P"), ("Reception_ID", CellValue.str "R1"),
               ("Full_Name", CellValue.str "A B"), ("Sex", CellValue.str "F"),
               ("Date_of_Birth", CellValue.str "2000-01-01"),
               ("Arrival_Date", CellValue.str "2024-05-01"), ("Ethnicity", CellValue.na),
               ("Group_Size", CellValue.str "3"), ("Reception_Location", CellValue.str "L")] }

/-- A row whose Process_Status column is entirely absent. -/
def rowMissing : Record :=
  { fields := [("Reception_ID", CellValue.str "R1")] }

/-- A row carrying every column mainv2.py maps. -/
def rowV2Full : Record :=
  { fields := [("Reception_ID", CellValue.str "R1"), ("Type", CellValue.str "T"),
               ("Group_Size", CellValue.str "4")] }

/-- The payload main.py builds from rowFull with project id proj and
uuid draw abc. -/
def payloadC : Main.Payload :=
  ((Main.create_payload rowFull "proj" "abc").toOption).getD default

/-- A main.py configuration with batch_size 0 and a resolvable token. -/
def cfgB0 : Main.Config :=
  { batch_size := 0, concurrency_level := 5, project_uuid := "proj"
    api_token_map := [("unhcr_prod", "tok")] }

/-- A main.py configuration whose token map lacks the key main looks up. -/
def cfgNoTok : Main.Config :=
  { batch_size := 2, concurrency_level := 5, project_uuid := "proj", api_token_map := [] }

/-- A mainv2.py configuration. -/
def cfgV2 : MainV2.Config := { batch_size := 2, project_uuid := "proj" }

/-! Helper lemmas about the retry loop. -/

lemma retryLoop_always500 (b a : Nat) :
    retryLoop always500 a b = none ∧ requestCount always500 a b = b + 1 := by
  induction b generalizing a with
  | zero => exact ⟨rfl, rfl⟩
  | succ n ih =>
    refine ⟨?_, ?_⟩
    · show retryLoop always500 (a + 1) n = none
      exact (ih (a + 1)).1
    · show 1 + requestCount always500 (a + 1) n = n + 1 + 1
      rw [(ih (a + 1)).2]
      omega

lemma retryLoop_flaky503 (k : Nat) :
    ∀ b a, k ≤ a + b → a ≤ k →
      retryLoop (flaky503 k) a b = some 201 ∧ requestCount (flaky503 k) a b = k - a + 1 := by
  intro b
  induction b with
  | zero =>
    intro a h1 h2
    have hak : a = k := by omega
    subst hak
    have hf : flaky503 a a = AttemptResult.status 201 := by
      unfold flaky503
      rw [if_neg (lt_irrefl a)]
    refine ⟨?_, ?_⟩
    · simp only [retryLoop, hf]
      simp [statusForcelist]
    · simp only [requestCount]
      omega
  | succ n ih =>
    intro a h1 h2
    rcases Nat.lt_or_ge a k with hak | hak
    · obtain ⟨ihl, ihc⟩ := ih (a + 1) (by omega) (by omega)
      have hf : flaky503 k a = AttemptResult.status 503 := by
        unfold flaky503
        rw [if_pos hak]
      refine ⟨?_, ?_⟩
      · simp only [retryLoop, hf]
        simpa [statusForcelist] using ihl
      · simp only [requestCount, hf]
        simp only [statusForcelist]
        have hc : ([500, 502, 503, 504] : List Nat).contains 503 = true := rfl
        rw [if_pos hc, ihc]
        omega
    · have hak2 : a = k := by omega
      subst hak2
      have hf : flaky503 a a = AttemptResult.status 201 := by
        unfold flaky503
        rw [if_neg (lt_irrefl a)]
      refine ⟨?_, ?_⟩
      · simp only [retryLoop, hf]
        simp [statusForcelist]
      · simp only [requestCount, hf]
        simp [statusForcelist]

/-- classify in if-form: success exactly on a terminal 201 response. -/
lemma classify_eq_if (res : Option Nat) :
    classify res = if res = some 201 then Outcome.success else Outcome.failure := by
  match res with
  | none => simp [classify]
  | some c =>
    by_cases hc : c = 201
    · subst hc
      simp [classify]
    · have h1 : (c == 201) = false := by simp [hc]
      simp [classify, h1, hc]

/-- create_payload of main.py succeeds exactly when the row carries every
mapped column. -/
lemma create_payload_isOk (r : Record) (pid u : String) :
    (Main.create_payload r pid u).isOk = Main.hasRequiredFields r := by
  unfold Main.create_payload Main.hasRequiredFields Record.get
  cases r.fields.lookup "Process_Status" with
  | none => rfl
  | some v1 =>
  cases r.fields.lookup "Reception_ID" with
  | none => rfl
  | some v2 =>
  cases r.fields.lookup "Full_Name" with
  | none => rfl
  | some v3 =>
  cases r.fields.lookup "Sex" with
  | none => rfl
  | some v4 =>
  cases r.fields.lookup "Date_of_Birth" with
  | none => rfl
  | some v5 =>
  cases r.fields.lookup "Arrival_Date" with
  | none => rfl
  | some v6 =>
  cases r.fields.lookup "Ethnicity" with
  | none => rfl
  | some v7 =>
  cases r.fields.lookup "Group_Size" with
  | none => rfl
  | some v8 =>
  cases r.fields.lookup "Reception_Location" with
  | none => rfl
  | some v9 => rfl

/-- Claim C4: with an endpoint answering 500 to every attempt, exactly
max_retries + 1 HTTP requests are sent and the outcome is Failure, in both
variants; with an endpoint answering 503 exactly k times (k < max_retries)
and 201 afterwards, exactly k + 1 requests are sent and the outcome is
Success, in both variants. -/
theorem c4_retry_policy (m k : Nat) (hk : k < m) :
    (classify (Main.send_request_with_retry always500 m) = Outcome.failure
      ∧ classify (MainV2.send_request_with_retry always500 m) = Outcome.failure
      ∧ requestCount always500 0 m = m + 1)
    ∧ (classify (Main.send_request_with_retry (flaky503 k) m) = Outcome.success
      ∧ classify (MainV2.send_request_with_retry (flaky503 k) m) = Outcome.success
      ∧ requestCount (flaky503 k) 0 m = k + 1) := by
  obtain ⟨h1, h2⟩ := retryLoop_always500 m 0
  obtain ⟨h3, h4⟩ := retryLoop_flaky503 k m 0 (by omega) (by omega)
  refine ⟨⟨?_, ?_, h2⟩, ?_, ?_, by omega⟩
  · simp only [Main.send_request_with_retry]
    rw [h1]
    rfl
  · simp only [MainV2.send_request_with_retry]
    rw [h1]
    rfl
  · simp only [Main.send_request_with_retry]
    rw [h3]
    decide
  · simp only [MainV2.send_request_with_retry]
    rw [h3]
    decide

/-- Witness for C4 at max_retries 3 and k 1. -/
theorem c4_retry_policy_witness :
    (1 : Nat) < 3 ∧ requestCount always500 0 3 = 4 ∧ requestCount (flaky503 1) 0 3 = 2 :=
  ⟨by decide, (c4_retry_policy 3 1 (by decide)).1.2.2, (c4_retry_policy 3 1 (by decide)).2.2.2⟩

/-- Claim C10: for every network behaviour (any per-attempt status code or
transport exception), the two variants classify the record identically:
returning the raw response and testing status == 201 (main.py) agrees with
calling raise_for_status first (mainv2.py). -/
theorem c10_variants_agree (ep : Endpoint) (m : Nat) :
    classify (MainV2.send_request_with_retry ep m)
      = classify (Main.send_request_with_retry ep m) := by
  unfold Main.send_request_with_retry MainV2.send_request_with_retry
  cases h : retryLoop ep 0 m with
  | none => rfl
  | some c =>
    show classify (if 400 ≤ c && c < 600 then none else some c) = classify (some c)
    by_cases hc : c = 201
    · subst hc
      decide
    · have hbeq : (c == 201) = false := by simp [hc]
      split
      · simp [classify, hbeq]
      · simp [classify, hbeq]

/-- Claim C1 fails on the code: process_batch builds each record payload
once and the retry layer re-sends that same body, so a record retried over
3 attempts puts the same meta.instanceID on the wire 3 times, not 3
distinct identifiers. -/
theorem c1_counterexample :
    (sentPayloads always503 2 payloadC).length = 3
    ∧ (sentPayloads always503 2 payloadC).map (fun q => q.submission.meta.instanceID)
        = ["uuid:abc", "uuid:abc", "uuid:abc"] := by
  constructor
  · rfl
  · rfl

/-- Claim C1 amended: the instance identifier is fresh per payload
construction, that is once per record and run; every HTTP attempt for one
record carries that same identifier, so the attempts of a record contribute
one remote instance identity, however often the request is retried. -/
theorem c1_amended_same_id_all_attempts (ep : Endpoint) (maxRetries : Nat) (p : Main.Payload) :
    (sentPayloads ep maxRetries p).length = requestCount ep 0 maxRetries
    ∧ (sentPayloads ep maxRetries p).map (fun q => q.submission.meta.instanceID)
        = List.replicate (requestCount ep 0 maxRetries) p.submission.meta.instanceID := by
  constructor
  · simp [sentPayloads]
  · simp [sentPayloads, List.map_replicate]

lemma map_bind_congr {e a b c : Type} (st : b → c) (x : Except e a) (f g : a → Except e b)
    (h : ∀ v, Except.map st (f v) = Except.map st (g v)) :
    Except.map st (x >>= f) = Except.map st (x >>= g) := by
  cases x with
  | error msg => rfl
  | ok v => exact h v

/-- Claim C8: on the same record and project id, two calls of the payload
builder agree on every field except meta.instanceID, in both variants. -/
theorem c8_builder_deterministic_up_to_id (r : Record) (pid u1 u2 : String) :
    Except.map Main.stripInstanceID (Main.create_payload r pid u1)
      = Except.map Main.stripInstanceID (Main.create_payload r pid u2)
    ∧ Except.map MainV2.stripInstanceID (MainV2.create_payload r pid u1)
      = Except.map MainV2.stripInstanceID (MainV2.create_payload r pid u2) := by
  constructor
  · unfold Main.create_payload
    refine map_bind_congr _ _ _ _ fun ps => ?_
    refine map_bind_congr _ _ _ _ fun rid => ?_
    refine map_bind_congr _ _ _ _ fun fn => ?_
    refine map_bind_congr _ _ _ _ fun sx => ?_
    refine map_bind_congr _ _ _ _ fun dob => ?_
    refine map_bind_congr _ _ _ _ fun ad => ?_
    refine map_bind_congr _ _ _ _ fun eth => ?_
    refine map_bind_congr _ _ _ _ fun gs => ?_
    refine map_bind_congr _ _ _ _ fun rl => ?_
    rfl
  · unfold MainV2.create_payload
    refine map_bind_congr _ _ _ _ fun rid => ?_
    refine map_bind_congr _ _ _ _ fun ty => ?_
    refine map_bind_congr _ _ _ _ fun gs => ?_
    rfl

/-- Claim C7 fails on the code: safe_str only coerces a present NaN value;
a row whose mapped column is absent altogether makes create_payload raise
KeyError instead of producing an empty string. -/
theorem c7_counterexample :
    Main.create_payload rowMissing "proj" "u" = Except.error "KeyError: Process_Status" := by
  rfl

/-- Claim C7 amended: the payload builder succeeds exactly when the row
carries every mapped column, and then every missing (NaN) value is coerced
to the empty string, never to a null marker; a row lacking a mapped column
raises a KeyError instead. -/
theorem c7_amended_nan_coerced_missing_column_fatal (r : Record) (pid u : String) :
    ((Main.create_payload r pid u).isOk = Main.hasRequiredFields r)
    ∧ safe_str CellValue.na = ""
    ∧ (∀ ps rid fn sx dob ad eth gs rl : CellValue,
        Main.create_payload
          { fields := [("Process_Status", ps), ("Reception_ID", rid), ("Full_Name", fn),
                       ("Sex", sx), ("Date_of_Birth", dob), ("Arrival_Date", ad),
                       ("Ethnicity", eth), ("Group_Size", gs), ("Reception_Location", rl)] }
          pid u
          = Except.ok
              { id := pid
                submission :=
                  { formhub_uuid := "6c18862e8a0442f5b04e957541bb223d"
                    Process_Status := safe_str ps
                    Reception_ID := safe_str rid
                    Full_Name := safe_str fn
                    Sex := safe_str sx
                    Date_of_Birth := safe_str dob
                    Arrival_Date := safe_str ad
                    Ethnicity := safe_str eth
                    Group_Size := safe_str gs
                    Reception_Location := safe_str rl
                    version := "vHgTnHiEdARTknHYRTLR2x"
                    meta := { instanceID := "uuid:" ++ u } } }) := by
  refine ⟨create_payload_isOk r pid u, rfl, ?_⟩
  intro ps rid fn sx dob ad eth gs rl
  rfl

/-- Claim C9 amended: variant 1 (main.py) does fail fast before any
submission when the token lookup key is missing or maps to an empty value;
variant 2 (mainv2.py) performs no validation and an absent API_TOKEN yields
headers carrying the literal string Token None. -/
theorem c9_amended_v1_fatal_v2_not (config : Main.Config) (df : List Record)
    (uus : Nat → String) (eps : Nat → Endpoint) (m : Nat)
    (h : Main.tokenFalsy (config.api_token_map.lookup "unhcr_prod") = true) :
    Main.main config df uus eps m = Except.error ("Unknown user value: " ++ "unhcr_prod")
    ∧ MainV2.get_headers none
        = { authorization := "Token None", contentType := "application/json" } := by
  constructor
  · unfold Main.main Main.get_api_token
    rw [if_pos h]
    rfl
  · rfl

/-- Witness for the amended C9 on a configuration whose token map is empty. -/
theorem c9_amended_witness :
    Main.main cfgNoTok [rowFull] uusFixed netAll201 3
      = Except.error ("Unknown user value: " ++ "unhcr_prod") :=
  (c9_amended_v1_fatal_v2_not cfgNoTok [rowFull] uusFixed netAll201 3 rfl).1

/-! Partition lemmas for df.groupby(np.arange(len(df)) // batch_size). -/

lemma filter_enumFrom_eq_nil {α : Type} (P : Nat → Bool) (l : List α) (s : Nat)
    (h : ∀ i, s ≤ i → i < s + l.length → P i = false) :
    (List.enumFrom s l).filter (fun p => P p.1) = [] := by
  induction l generalizing s with
  | nil => rfl
  | cons a t ih =>
    have h0 : P s = false := h s le_rfl (by simp)
    have ht := ih (s + 1) (fun i hi1 hi2 => h i (by omega) (by simp only [List.length_cons]; omega))
    simp [List.enumFrom, List.filter_cons, h0, ht]

lemma filter_enumFrom_eq_self {α : Type} (P : Nat → Bool) (l : List α) (s : Nat)
    (h : ∀ i, s ≤ i → i < s + l.length → P i = true) :
    (List.enumFrom s l).filter (fun p => P p.1) = List.enumFrom s l := by
  induction l generalizing s with
  | nil => rfl
  | cons a t ih =>
    have h0 : P s = true := h s le_rfl (by simp)
    have ht := ih (s + 1) (fun i hi1 hi2 => h i (by omega) (by simp only [List.length_cons]; omega))
    simp [List.enumFrom, List.filter_cons, h0, ht]

/-- For batch_size at least 1 the distinct group keys are exactly
0, 1, ..., ceil(n / B) - 1 in order. -/
lemma batchKeys_eq (n B : Nat) (hB : 1 ≤ B) :
    batchKeys n B = List.range ((n + B - 1) / B) := by
  unfold batchKeys
  have hFin : ((List.range n).map (fun i => i / B)).toFinset = Finset.range ((n + B - 1) / B) := by
    ext k
    simp only [List.mem_toFinset, List.mem_map, List.mem_range, Finset.mem_range]
    constructor
    · rintro ⟨i, hi, rfl⟩
      rw [Nat.div_lt_iff_lt_mul hB]
      have h1 : (n + B - 1) / B * B + (n + B - 1) % B = n + B - 1 := Nat.div_add_mod' _ _
      have h2 : (n + B - 1) % B < B := Nat.mod_lt _ hB
      omega
    · intro hk
      have hn : 1 ≤ n := by
        by_contra hcon
        have hn0 : n = 0 := by omega
        rw [hn0] at hk
        rw [Nat.div_eq_of_lt (by omega)] at hk
        omega
      refine ⟨k * B, ?_, Nat.mul_div_cancel k hB⟩
      have h3 : k + 1 ≤ (n + B - 1) / B := hk
      have h4 : (k + 1) * B ≤ n + B - 1 := by
        rw [← Nat.le_div_iff_mul_le hB]
        exact h3
      have h5 : (k + 1) * B = k * B + B := by ring
      omega
  rw [hFin, Finset.sort_range]

/-- For batch_size at least 1 the group with key k is the contiguous slice
of B records starting at index k * B. -/
lemma batch_slice {α : Type} (l : List α) (B k : Nat) (hB : 1 ≤ B) :
    (l.enum.filter (fun p => p.1 / B == k)).map Prod.snd = (l.drop (k * B)).take B := by
  have henum : l.enum = List.enumFrom 0 l := rfl
  by_cases hkB : l.length ≤ k * B
  · rw [List.drop_eq_nil_of_le hkB, henum,
      filter_enumFrom_eq_nil (fun i => i / B == k) l 0 ?_]
    · simp
    · intro i hi0 hil
      have hik : i / B < k := by
        rw [Nat.div_lt_iff_lt_mul hB]
        omega
      simp [Nat.ne_of_lt hik]
  · push_neg at hkB
    have hA : (l.take (k * B)).length = k * B := by
      rw [List.length_take]
      omega
    have e1 : ((l.drop (k * B)).take B).length = min B (l.length - k * B) := by
      rw [List.length_take, List.length_drop]
    have e2 : ((l.drop (k * B)).drop B).length = l.length - k * B - B := by
      rw [List.length_drop, List.length_drop]
    have hmul : (k + 1) * B = k * B + B := by ring
    have hsplit : l = l.take (k * B) ++ ((l.drop (k * B)).take B ++ (l.drop (k * B)).drop B) := by
      rw [List.take_append_drop, List.take_append_drop]
    have key : List.enumFrom 0 l
        = List.enumFrom 0 (l.take (k * B))
          ++ (List.enumFrom (0 + (l.take (k * B)).length) ((l.drop (k * B)).take B)
          ++ List.enumFrom (0 + (l.take (k * B)).length + ((l.drop (k * B)).take B).length)
               ((l.drop (k * B)).drop B)) := by
      conv_lhs => rw [hsplit]
      rw [List.enumFrom_append, List.enumFrom_append]
    have hfA : (List.enumFrom 0 (l.take (k * B))).filter (fun p => p.1 / B == k) = [] := by
      refine filter_enumFrom_eq_nil (fun i => i / B == k) _ _ ?_
      intro i hi0 hil
      rw [hA] at hil
      have hik : i / B < k := by
        rw [Nat.div_lt_iff_lt_mul hB]
        omega
      simp [Nat.ne_of_lt hik]
    have hfM : (List.enumFrom (0 + (l.take (k * B)).length) ((l.drop (k * B)).take B)).filter
          (fun p => p.1 / B == k)
        = List.enumFrom (0 + (l.take (k * B)).length) ((l.drop (k * B)).take B) := by
      refine filter_enumFrom_eq_self (fun i => i / B == k) _ _ ?_
      intro i hi1 hi2
      rw [hA] at hi1 hi2
      have hdiv : i / B = k := by
        apply Nat.div_eq_of_lt_le
        · omega
        · omega
      simp [hdiv]
    have hfR : (List.enumFrom (0 + (l.take (k * B)).length + ((l.drop (k * B)).take B).length)
          ((l.drop (k * B)).drop B)).filter (fun p => p.1 / B == k) = [] := by
      refine filter_enumFrom_eq_nil (fun i => i / B == k) _ _ ?_
      intro i hi1 hi2
      have hRpos : 0 < ((l.drop (k * B)).drop B).length := by omega
      have hlenM : ((l.drop (k * B)).take B).length = B := by omega
      have hik : k + 1 ≤ i / B := by
        rw [Nat.le_div_iff_mul_le hB]
        rw [hA, hlenM] at hi1
        omega
      have hne : i / B ≠ k := by omega
      simp [hne]
    rw [henum, key, List.filter_append, List.filter_append, hfA, hfM, hfR]
    simp [List.enumFrom_map_snd]

/-- Closed form of the partition for batch_size at least 1: batch k is the
slice of at most B records starting at index k * B. -/
lemma batchPartition_closedForm {α : Type} (l : List α) (B : Nat) (hB : 1 ≤ B) :
    batchPartition l B
      = (List.range ((l.length + B - 1) / B)).map (fun k => (l.drop (k * B)).take B) := by
  unfold batchPartition
  rw [batchKeys_eq l.length B hB]
  exact List.map_congr_left (fun k _ => batch_slice l B k hB)

lemma rangeForm_flatten {α : Type} (B : Nat) (hB : 1 ≤ B) :
    ∀ (m : Nat) (l : List α), m = (l.length + B - 1) / B →
      ((List.range m).map (fun k => (l.drop (k * B)).take B)).flatten = l := by
  intro m
  induction m with
  | zero =>
    intro l hm
    have hlen : l.length = 0 := by
      by_contra hcon
      have h1 : 1 ≤ (l.length + B - 1) / B := by
        rw [Nat.le_div_iff_mul_le hB, one_mul]
        omega
      omega
    have : l = [] := List.length_eq_zero.mp hlen
    subst this
    rfl
  | succ n ih =>
    intro l hm
    have hlen : 1 ≤ l.length := by
      by_contra hcon
      have h0 : l.length = 0 := by omega
      rw [h0] at hm
      rw [Nat.div_eq_of_lt (by omega)] at hm
      omega
    have hm2 : n = ((l.drop B).length + B - 1) / B := by
      rw [List.length_drop]
      rcases le_or_lt B l.length with hc | hc
      · have e1 : l.length - B + B - 1 = l.length - 1 := by omega
        rw [e1]
        have e2 : l.length + B - 1 = (l.length - 1) + B := by omega
        rw [e2, Nat.add_div_right _ hB] at hm
        omega
      · have e1 : l.length - B = 0 := by omega
        rw [e1, Nat.div_eq_of_lt (by omega)]
        have e5 : (l.length + B - 1) / B = 1 := by
          apply Nat.div_eq_of_lt_le
          · rw [one_mul]
            omega
          · have : (1 + 1) * B = 2 * B := by ring
            rw [this]
            omega
        omega
    have hcong : List.map ((fun k => (l.drop (k * B)).take B) ∘ Nat.succ) (List.range n)
        = List.map (fun k => (((l.drop B).drop (k * B)).take B)) (List.range n) := by
      apply List.map_congr_left
      intro k _
      simp only [Function.comp_apply]
      rw [List.drop_drop]
      have hoff : Nat.succ k * B = B + k * B := by
        rw [Nat.succ_mul]
        omega
      rw [hoff]
    rw [List.range_succ_eq_map, List.map_cons, List.flatten_cons, List.map_map, hcong,
      ih (l.drop B) hm2]
    simp

lemma batchPartition_flatten {α : Type} (l : List α) (B : Nat) (hB : 1 ≤ B) :
    (batchPartition l B).flatten = l := by
  rw [batchPartition_closedForm l B hB]
  exact rangeForm_flatten B hB _ l rfl

lemma batchPartition_length {α : Type} (l : List α) (B : Nat) (hB : 1 ≤ B) :
    (batchPartition l B).length = (l.length + B - 1) / B := by
  rw [batchPartition_closedForm l B hB]
  simp

lemma batchPartition_sum {α : Type} (l : List α) (B : Nat) (hB : 1 ≤ B) :
    ((batchPartition l B).map List.length).sum = l.length := by
  rw [← List.length_flatten, batchPartition_flatten l B hB]

lemma getD_map_range {β : Type} (f : Nat → β) (d : β) (m k : Nat) (hk : k < m) :
    ((List.range m).map f).getD k d = f k := by
  rw [List.getD_eq_getElem?_getD, List.getElem?_map, List.getElem?_range hk]
  rfl

lemma batchPartition_full {α : Type} (l : List α) (B k : Nat) (hB : 1 ≤ B)
    (hk : k + 1 < (batchPartition l B).length) :
    ((batchPartition l B).getD k []).length = B := by
  rw [batchPartition_length l B hB] at hk
  rw [batchPartition_closedForm l B hB]
  have hn : 1 ≤ l.length := by
    by_contra hcon
    have h0 : l.length = 0 := by omega
    rw [h0, Nat.div_eq_of_lt (by omega)] at hk
    omega
  have hm : (l.length + B - 1) / B = (l.length - 1) / B + 1 := by
    have e2 : l.length + B - 1 = (l.length - 1) + B := by omega
    rw [e2, Nat.add_div_right _ hB]
  have hk0 : k < (l.length + B - 1) / B := by omega
  rw [getD_map_range _ _ _ _ hk0]
  rw [List.length_take, List.length_drop]
  have h1 : k + 1 ≤ (l.length - 1) / B := by omega
  have h2 : (k + 1) * B ≤ l.length - 1 := (Nat.le_div_iff_mul_le hB).mp h1
  have h3 : (k + 1) * B = k * B + B := by ring
  omega

lemma batchPartition_mem {α : Type} (l : List α) (B : Nat) (hB : 1 ≤ B) (i : Nat)
    (hi : i < l.length) :
    l[i] ∈ (batchPartition l B).getD (i / B) [] := by
  rw [batchPartition_closedForm l B hB]
  have him : i / B < (l.length + B - 1) / B := by
    rw [Nat.div_lt_iff_lt_mul hB]
    have h1 : (l.length + B - 1) / B * B + (l.length + B - 1) % B = l.length + B - 1 :=
      Nat.div_add_mod' _ _
    have h2 : (l.length + B - 1) % B < B := Nat.mod_lt _ hB
    omega
  rw [getD_map_range _ _ _ _ him]
  have hmod : i % B < B := Nat.mod_lt _ hB
  have hdm : i / B * B + i % B = i := Nat.div_add_mod' i B
  have hlen : i % B < ((l.drop (i / B * B)).take B).length := by
    rw [List.length_take, List.length_drop]
    omega
  have hget : ((l.drop (i / B * B)).take B)[i % B] = l[i] := by
    rw [List.getElem_take, List.getElem_drop]
    congr 1
  rw [← hget]
  exact List.getElem_mem hlen

/-- With batch_size 0, numpy floor division by zero yields key 0 for every
row (a warning, not an error), so the whole record list forms one batch. -/
lemma batchPartition_zero {α : Type} (l : List α) (h : l ≠ []) : batchPartition l 0 = [l] := by
  unfold batchPartition batchKeys
  have hn : 0 < l.length := List.length_pos.mpr h
  have hkey : ((List.range l.length).map (fun i => i / 0)).toFinset = ({0} : Finset Nat) := by
    ext k
    simp only [List.mem_toFinset, List.mem_map, List.mem_range, Finset.mem_singleton]
    constructor
    · rintro ⟨i, hi, rfl⟩
      exact (Nat.div_zero i).symm ▸ rfl
    · intro hk
      exact ⟨0, hn, by rw [Nat.div_zero, hk]⟩
  rw [hkey, Finset.sort_singleton]
  simp only [List.map_cons, List.map_nil]
  have henum : l.enum = List.enumFrom 0 l := rfl
  have hall : (List.enumFrom 0 l).filter (fun p => p.1 / 0 == 0) = List.enumFrom 0 l := by
    refine filter_enumFrom_eq_self (fun i => i / 0 == 0) _ _ ?_
    intro i hi1 hi2
    simp [Nat.div_zero]
  rw [henum, hall, List.enumFrom_map_snd]

/-- Claim C3: for batch_size B at least 1 the scheduler partitions the N
input records into exactly ceil(N/B) contiguous ordered batches; record i
lands in batch i / B, every batch except possibly the last holds exactly B
records, and the per-batch counts sum to N. -/
theorem c3_partition (α : Type) (records : List α) (B : Nat) (hB : 1 ≤ B) :
    (batchPartition records B).length = (records.length + B - 1) / B
    ∧ (batchPartition records B).flatten = records
    ∧ (∀ i (hi : i < records.length),
        records[i] ∈ (batchPartition records B).getD (i / B) [])
    ∧ (∀ k, k + 1 < (batchPartition records B).length →
        ((batchPartition records B).getD k []).length = B)
    ∧ ((batchPartition records B).map List.length).sum = records.length :=
  ⟨batchPartition_length records B hB, batchPartition_flatten records B hB,
   fun i hi => batchPartition_mem records B hB i hi,
   fun k hk => batchPartition_full records B k hB hk,
   batchPartition_sum records B hB⟩

/-- Witness for C3 with three records and batch_size 2. -/
theorem c3_partition_witness :
    (1 : Nat) ≤ 2 ∧ (batchPartition [10, 20, 30] 2).length = (3 + 2 - 1) / 2 :=
  ⟨by decide, (c3_partition Nat [10, 20, 30] 2 (by decide)).1⟩

/-- Claim C6 fails on the code: no batch_size validation exists; with
batch_size 0 the run proceeds (numpy floor division by zero yields key 0
with only a warning), every record landing in a single batch that is
submitted normally. -/
theorem c6_counterexample :
    Main.main cfgB0 [rowFull] uusFixed netAll201 3 = Except.ok [Outcome.success] := by
  have hpart : batchPartition [rowFull] (0 : Nat) = [[rowFull]] :=
    batchPartition_zero [rowFull] (by simp)
  unfold Main.main
  rw [show cfgB0.batch_size = 0 from rfl, hpart]
  rfl

/-- Claim C6 amended: the scheduler performs no batch_size validation and
never fails fast; with batch_size 0 the whole nonempty input becomes one
batch and the run proceeds, and with batch_size at least 1 partitioning
simply proceeds, yielding ceil(N/B) batches. -/
theorem c6_amended_no_failfast (α : Type) (l : List α) (B : Nat) :
    (l ≠ [] → batchPartition l 0 = [l])
    ∧ (1 ≤ B → (batchPartition l B).length = (l.length + B - 1) / B) :=
  ⟨fun h => batchPartition_zero l h, fun hB => batchPartition_length l B hB⟩

/-- Witness for the amended C6 at batch_size 0 and 3. -/
theorem c6_amended_witness :
    batchPartition [1, 2] 0 = [[1, 2]]
    ∧ (batchPartition ([1, 2] : List Nat) 3).length = (2 + 3 - 1) / 3 :=
  ⟨(c6_amended_no_failfast Nat [1, 2] 0).1 (by decide),
   (c6_amended_no_failfast Nat [1, 2] 3).2 (by decide)⟩

/-- Claim C9 fails on the code: mainv2.py never validates the API_TOKEN
environment variable; with the variable absent the run proceeds and every
request is sent with the literal header Token None, here succeeding on one
record instead of aborting before submission. -/
theorem c9_counterexample :
    MainV2.main none cfgV2 [rowV2Full] uusFixed netAll201 3
      = Except.ok ({ authorization := "Token None", contentType := "application/json" },
                   [Outcome.success]) := by
  have hpart : batchPartition [rowV2Full] (2 : Nat) = [[rowV2Full]] := by
    rw [batchPartition_closedForm _ 2 (by omega)]
    rfl
  unfold MainV2.main
  rw [show cfgV2.batch_size = 2 from rfl, hpart]
  rfl

/-! Lemmas for the dispatch loop of main.py. -/

lemma buildPayloads_ok (pid : String) (uus : Nat → String) (batch : List Record) :
    ∀ i, (∀ r ∈ batch, Main.hasRequiredFields r = true) →
      ∃ ps, Main.buildPayloads pid uus i batch = Except.ok ps := by
  induction batch with
  | nil => exact fun i _ => ⟨[], rfl⟩
  | cons a t ih =>
    intro i h
    have ha : Main.hasRequiredFields a = true := h a (by simp)
    have hok : (Main.create_payload a pid (uus i)).isOk = true := by
      rw [create_payload_isOk]
      exact ha
    obtain ⟨p, hp⟩ : ∃ p, Main.create_payload a pid (uus i) = Except.ok p := by
      cases hcp : Main.create_payload a pid (uus i) with
      | ok q => exact ⟨q, rfl⟩
      | error e =>
        rw [hcp] at hok
        simp [Except.isOk, Except.toBool] at hok
    obtain ⟨ps, hps⟩ := ih (i + 1) (fun r hr => h r (by simp [hr]))
    refine ⟨p :: ps, ?_⟩
    simp only [Main.buildPayloads, hp, hps]
    rfl

lemma process_batch_ok (offset : Nat) (batch : List Record) (pid : String)
    (uus : Nat → String) (eps : Nat → Endpoint) (m : Nat)
    (h : ∀ r ∈ batch, Main.hasRequiredFields r = true) :
    Main.process_batch offset batch pid uus eps m
      = Except.ok ((List.range batch.length).map
          (fun j => classify (Main.send_request_with_retry (eps (offset + j)) m))) := by
  obtain ⟨ps, hps⟩ := buildPayloads_ok pid uus batch offset h
  simp only [Main.process_batch, hps]
  rfl

lemma run_batches_ok (pid : String) (uus : Nat → String) (eps : Nat → Endpoint) (m : Nat) :
    ∀ (bs : List (List Record)) (offset : Nat),
      (∀ b ∈ bs, ∀ r ∈ b, Main.hasRequiredFields r = true) →
      ∃ outs, Main.run_batches pid uus eps m bs offset = Except.ok outs
        ∧ outs.length = (bs.map List.length).sum := by
  intro bs
  induction bs with
  | nil => exact fun off _ => ⟨[], rfl, by simp⟩
  | cons b t ih =>
    intro off h
    have h1 := process_batch_ok off b pid uus eps m (h b (by simp))
    obtain ⟨outs, houts, hlen⟩ := ih (off + b.length) (fun c hc r hr => h c (by simp [hc]) r hr)
    refine ⟨((List.range b.length).map
        (fun j => classify (Main.send_request_with_retry (eps (off + j)) m))) ++ outs, ?_, ?_⟩
    · simp only [Main.run_batches, h1, houts]
      rfl
    · simp [hlen]

/-- Claim C2: with batch_size at least 1 and rows carrying the mapped
columns, a run records exactly one terminal outcome per input record,
whatever every individual request returns; per batch, dispatch yields
exactly one outcome per record of the batch. -/
theorem c2_outcome_counts (records : List Record) (B : Nat) (pid : String)
    (uus : Nat → String) (eps : Nat → Endpoint) (m : Nat) (hB : 1 ≤ B)
    (hmap : ∀ r ∈ records, Main.hasRequiredFields r = true) :
    (∃ outs, Main.run_batches pid uus eps m (batchPartition records B) 0 = Except.ok outs
      ∧ outs.length = records.length)
    ∧ (∀ batch ∈ batchPartition records B, ∀ offset outs,
        Main.process_batch offset batch pid uus eps m = Except.ok outs →
        outs.length = batch.length) := by
  constructor
  · have hall : ∀ b ∈ batchPartition records B, ∀ r ∈ b, Main.hasRequiredFields r = true := by
      intro b hb r hr
      apply hmap
      rw [← batchPartition_flatten records B hB]
      exact List.mem_flatten.mpr ⟨b, hb, hr⟩
    obtain ⟨outs, h1, h2⟩ := run_batches_ok pid uus eps m (batchPartition records B) 0 hall
    exact ⟨outs, h1, by rw [h2, batchPartition_sum records B hB]⟩
  · intro batch hbatch offset outs h
    unfold Main.process_batch at h
    cases hbp : Main.buildPayloads pid uus offset batch with
    | error e =>
      rw [hbp] at h
      simp [Bind.bind, Except.bind] at h
    | ok ps =>
      rw [hbp] at h
      simp [Bind.bind, Except.bind] at h
      rw [← h]
      simp

/-- Witness for C2 with one record and batch_size 1. -/
theorem c2_outcome_counts_witness :
    (1 : Nat) ≤ 1 ∧ (∃ outs,
      Main.run_batches "proj" uusFixed netAll201 3 (batchPartition [rowFull] 1) 0
        = Except.ok outs ∧ outs.length = ([rowFull] : List Record).length) :=
  ⟨by decide,
   (c2_outcome_counts [rowFull] 1 "proj" uusFixed netAll201 3 (by decide) (by decide)).1⟩

/-- Claim C5: a submission is classified Success exactly on a terminal 201
response; every other terminal status, retry exhaustion or transport
exception yields Failure, and such a Failure never escalates: whatever the
network does, the batch still completes with one recorded outcome per
record. -/
theorem c5_failure_never_fatal (batch : List Record) (offset : Nat) (pid : String)
    (uus : Nat → String) (eps : Nat → Endpoint) (m : Nat)
    (hmap : ∀ r ∈ batch, Main.hasRequiredFields r = true) :
    (∀ res : Option Nat, classify res = Outcome.success ↔ res = some 201)
    ∧ ∃ outs, Main.process_batch offset batch pid uus eps m = Except.ok outs
        ∧ outs.length = batch.length
        ∧ ∀ j (hj : j < outs.length),
            outs.get ⟨j, hj⟩
              = if Main.send_request_with_retry (eps (offset + j)) m = some 201
                then Outcome.success else Outcome.failure := by
  constructor
  · intro res
    rw [classify_eq_if]
    by_cases h : res = some 201 <;> simp [h]
  · rw [process_batch_ok offset batch pid uus eps m hmap]
    refine ⟨_, rfl, by simp, ?_⟩
    intro j hj
    rw [List.get_eq_getElem, List.getElem_map, List.getElem_range, classify_eq_if]

/-- Witness for C5 on an always-succeeding endpoint. -/
theorem c5_failure_never_fatal_witness :
    classify (some 201) = Outcome.success ↔ some 201 = some 201 :=
  (c5_failure_never_fatal [rowFull] 0 "proj" uusFixed netAll201 3 (by decide)).1 (some 201)

end KoboSpec
